import Mathlib

/-!
Verification of the pockyll bookmark-sync pipeline (src/pockyll.py) against
its natural-language specification. The Python source is shallowly embedded:
the pure helpers become Lean functions, the filesystem becomes an explicit
`FS` value, exceptions become an `Except` result, and the external
collaborators (HTTP fetch, readability extraction, sumy summarization, RAKE,
the Pocket feed client) become fields of an `Env` record, as the spec
declares them out of scope. Invocations of externals are recorded in an
event trace so that "X is never invoked" claims are stateable.
-/

namespace Pockyll

/-- Error values raised by the embedded program. `ioError` models Python
`IOError` (the only exception class `sync` catches), `runtimeError` models
`RuntimeError`, and `attributeError` models `AttributeError`. -/
inductive PyErr where
  | runtimeError (msg : String)
  | ioError (msg : String)
  | attributeError (msg : String)
deriving DecidableEq

/-- Shallow model of a parsed HTML document as seen through the only lxml
queries the program performs, namely xpath queries for the content attribute
of meta tags with a given name attribute. `metaTags` lists the
(name attribute, content attribute) pairs of the meta tags in document
order. -/
structure Html where
  metaTags : List (String × String)
deriving DecidableEq

/-- Models the xpath query used by `get_meta_desc` and `get_doc_keywords`:
the content attributes of all meta tags whose name attribute equals `name`,
in document order. The result is a Python list of unicode strings. -/
def xpathMetaContent (h : Html) (name : String) : List String :=
  (h.metaTags.filter (fun t => t.1 == name)).map Prod.snd

/-- Model of the Python naive `datetime.datetime` values this program
constructs: both `datetime.datetime.utcfromtimestamp` and
`datetime.datetime.now` return naive datetimes, carrying no tzinfo. -/
structure Datetime where
  year : Nat
  month : Nat
  day : Nat
  hour : Nat
  minute : Nat
  second : Nat
deriving DecidableEq

/-- Decimal digit character of `n % 10`. -/
def digitChar (n : Nat) : Char := Char.ofNat (48 + n % 10)

/-- Zero-padded two-digit rendering, as the %02d-style strftime fields
produce for the in-range values; out-of-range values print in full. -/
def pad2 (n : Nat) : String :=
  if n < 100 then String.mk [digitChar (n / 10), digitChar n] else toString n

/-- Zero-padded four-digit rendering for the %Y strftime field. -/
def pad4 (n : Nat) : String :=
  if n < 10000 then
    String.mk [digitChar (n / 1000), digitChar (n / 100), digitChar (n / 10), digitChar n]
  else toString n

/-- Models the strftime call with the year-month-day pattern used to build
the linkpost file name. -/
def strftimeDate (t : Datetime) : String :=
  pad4 t.year ++ "-" ++ pad2 t.month ++ "-" ++ pad2 t.day

/-- Models the %z strftime directive: on a naive datetime it expands to the
empty string, and the program only ever builds naive datetimes. -/
def percentZ (_t : Datetime) : String := ""

/-- Models the strftime call with the ISO pattern (ending in %z) used for
the date field of the front matter. -/
def strftimeIsoZ (t : Datetime) : String :=
  strftimeDate t ++ "T" ++ pad2 t.hour ++ ":" ++ pad2 t.minute ++ ":" ++
    pad2 t.second ++ percentZ t

/-- Whether an ISO-style timestamp string carries a numeric UTC-offset
suffix after the 19 characters of the date-time core, as the %z directive
would append for an aware datetime. -/
def hasUtcOffsetSuffix (s : String) : Bool :=
  match s.data.drop 19 with
  | c :: _ => c == '+' || c == '-'
  | [] => false

/-- Models `datetime.datetime.utcfromtimestamp` on a nonnegative epoch
value, via the standard civil-from-days conversion for the proleptic
Gregorian calendar. The result is naive. -/
def utcfromtimestamp (t : Nat) : Datetime :=
  let days := t / 86400
  let secs := t % 86400
  let z := days + 719468
  let era := z / 146097
  let doe := z % 146097
  let yoe := (doe - doe / 1460 + doe / 36524 - doe / 146096) / 365
  let doy := doe - (365 * yoe + yoe / 4 - yoe / 100)
  let mp := (5 * doy + 2) / 153
  let dday := doy - (153 * mp + 2) / 5 + 1
  let m := if mp < 10 then mp + 3 else mp - 9
  let y := yoe + era * 400 + (if m ≤ 2 then 1 else 0)
  { year := y, month := m, day := dday, hour := secs / 3600,
    minute := secs % 3600 / 60, second := secs % 60 }

/-- Filesystem state: the set of existing directories and the written files
with their contents, in write order. -/
structure FS where
  dirs : List String
  files : List (String × String)
deriving DecidableEq

/-- Models `os.path.exists`: true when the path names an existing directory
or an existing file. -/
def FS.pathExists (fs : FS) (p : String) : Bool :=
  fs.dirs.contains p || fs.files.any (fun f => f.1 == p)

/-- Models opening a file for writing, writing the text and closing it. -/
def FS.writeFile (fs : FS) (p c : String) : FS :=
  { fs with files := fs.files ++ [(p, c)] }

/-- Number of files stored under path `p`. -/
def FS.pathCount (fs : FS) (p : String) : Nat :=
  (fs.files.filter (fun f => f.1 == p)).length

/-- Observable invocations of the external collaborators and of the file
write, recorded in program order. -/
inductive Event where
  | httpGet (url : String)
  | summarizeInvoked (url : String)
  | rakeInvoked
  | wroteFile (path : String)
deriving DecidableEq

/-- Runtime value of the Python variable `summary` in `create_linkpost`: it
is either the list returned by `get_meta_desc` (lxml xpath results, which
are unicode strings) or the plain string returned by `get_doc_summary`. -/
inductive PySummaryVal where
  | strList (l : List String)
  | str (s : String)
deriving DecidableEq

/-- Python 2 repr of the unicode strings produced by lxml xpath queries;
exact for strings containing no characters that repr would escape. -/
def pyReprUnicode (s : String) : String := "u\x27" ++ s ++ "\x27"

/-- Python 2 %s conversion of the `summary` variable: a plain string
formats as itself, a list formats as its str, which reprs the elements. -/
def pyStrSummary : PySummaryVal → String
  | .str s => s
  | .strList l => "[" ++ String.intercalate ", " (l.map pyReprUnicode) ++ "]"

/-- Python 2 %s conversion of the `title` variable, which is None when the
bookmark has no resolved title. -/
def pyStrOptStr : Option String → String
  | none => "None"
  | some s => s

/-- Models the Python strip call with a single-space argument: removes
leading and trailing space characters only. -/
def stripSpaces (s : String) : String :=
  String.mk (((s.data.dropWhile (fun c => c == ' ')).reverse.dropWhile
    (fun c => c == ' ')).reverse)

/-- Models Python truthiness of the optional strings pulled out of a
bookmark item: None and the empty string are falsy. -/
def pyTruthyStr : Option String → Bool
  | none => false
  | some s => !(s == "")

/-- One bookmark entry of the Pocket response, restricted to the keys
`sync` reads. `time_added` holds the integer value that the source parses
out of the upstream string; it is absent when the key is missing. -/
structure Item where
  given_url : Option String
  resolved_id : Option String
  resolved_title : Option String
  time_added : Option Nat
deriving DecidableEq

/-- Configuration values read by `sync` and `create_linkpost`. A `none`
field models an absent key, for which the source substitutes a default via
`config.get`. -/
structure Config where
  pocket_access_token : Option String
  pocket_since : Option Nat
  linkpost_post_dir : Option String
  linkpost_draft_dir : Option String
deriving DecidableEq

/-- Result of `get_list`: the Pocket API response restricted to the fields
`sync` reads, namely the item collection (the response dict is modelled as
its list of values in iteration order; the keys are unused by the source)
and the new `since` cursor returned alongside the batch. -/
structure SyncResponse where
  list : List Item
  since : Nat
deriving DecidableEq

/-- External collaborators, out of scope per the spec: the HTTP fetch, the
readability document-summary extractor, the sumy TextRank summarization
pipeline inside `get_doc_summary`, the lxml text-content projection, the
RAKE extractor (scored candidates in ranked order), and the Pocket feed
client behind `get_list`. -/
structure Env where
  httpGet : String → Html
  documentSummary : Html → String
  textRankSummary : Html → String → String
  textContent : String → String
  rakeRun : String → List (String × Int)
  getList : Config → SyncResponse

/-- Translation of `get_meta_desc`: try the description meta tag, then
og:description, then twitter:description, returning the xpath result list
of the first query with matches. -/
def get_meta_desc (html : Html) : List String :=
  let desc := xpathMetaContent html "description"
  let desc := if desc.isEmpty then xpathMetaContent html "og:description" else desc
  let desc := if desc.isEmpty then xpathMetaContent html "twitter:description" else desc
  desc

/-- Translation of `get_doc_summary`: the whole sumy pipeline is an
external capability of the environment. -/
def get_doc_summary (env : Env) (html : Html) (url : String) : String :=
  env.textRankSummary html url

/-- Translation of `get_doc_keywords`, with invocation events. The xpath
query returns a Python list; when that list is non-empty the source calls
a split method on it, an attribute a list does not have, so the call
raises AttributeError at that point. Otherwise RAKE candidates are
projected to their phrases, cut to five and stripped. -/
def get_doc_keywords (env : Env) (html : Html) (articleDom : String) :
    List Event × Except PyErr (List String) :=
  let keywords := xpathMetaContent html "keywords"
  if !keywords.isEmpty then
    ([], .error (.attributeError "\x27list\x27 object has no attribute \x27split\x27"))
  else
    let text := env.textContent articleDom
    let kws := ((env.rakeRun text).map Prod.fst).take 5
    ([Event.rakeInvoked], .ok (kws.map stripSpaces))

/-- Destination directory chosen by `create_linkpost`, with the source
defaults substituted for absent config keys. -/
def linkpostDir (config : Config) (is_draft : Bool) : String :=
  if !is_draft then config.linkpost_post_dir.getD "_posts/linkposts"
  else config.linkpost_draft_dir.getD "_drafts/linkposts"

/-- Output path computed by `create_linkpost`. -/
def linkfileName (config : Config) (is_draft : Bool) (timestamp : Datetime)
    (item_id : String) : String :=
  linkpostDir config is_draft ++ "/" ++ strftimeDate timestamp ++ "-" ++
    item_id ++ ".markdown"

/-- Message of the RuntimeError raised for a missing destination directory. -/
def destinationMissingMsg (path : String) : String :=
  "The linkpost destination path " ++ path ++
    " does not exist. Please double-check spelling and create the destination path if applicable."

/-- Message of the IOError raised for an already existing linkpost file. -/
def overwriteMsg (linkfilename : String) : String :=
  "Doggedly refusing to overwrite existing file: " ++ linkfilename

/-- Resolution of the `summary` variable in `create_linkpost`: the
`get_meta_desc` list if non-empty, else the generated summary string, with
the summarizer invocation recorded. -/
def resolvedSummary (env : Env) (html : Html) (url : String) :
    List Event × PySummaryVal :=
  if (get_meta_desc html).isEmpty then
    ([Event.summarizeInvoked url], .str (get_doc_summary env html url))
  else ([], .strList (get_meta_desc html))

/-- Document text written by `create_linkpost` (the front-matter template
filled by %-formatting). -/
def linkpostText (title : Option String) (timestamp : Datetime) (url : String)
    (summary : PySummaryVal) (content : String) : String :=
  "---\nlayout: post\ntype: \x27reference\x27\ntitle: " ++ pyStrOptStr title ++
  "\ndate: " ++ strftimeIsoZ timestamp ++ "\nref: " ++ url ++
  "\nexcerpt: " ++ pyStrSummary summary ++ "\n---\n\n" ++ content ++
  "\n\n[View Original](" ++ url ++ ")\n"

/-- Translation of `create_linkpost`. The returned trace lists the external
invocations and the write that happened before the function returned or
raised; on an error the filesystem is unchanged, since the only mutation
(the file write) is the last step of the source function. -/
def create_linkpost (env : Env) (config : Config) (fs : FS) (item_id : String)
    (title : Option String) (url : String) (timestamp : Datetime)
    (is_draft : Bool) : List Event × Except PyErr FS :=
  let path := linkpostDir config is_draft
  if !(fs.pathExists path) then
    ([], .error (.runtimeError (destinationMissingMsg path)))
  else
    let linkfilename := linkfileName config is_draft timestamp item_id
    if fs.pathExists linkfilename then
      ([], .error (.ioError (overwriteMsg linkfilename)))
    else
      let html := env.httpGet url
      let content := env.documentSummary html
      let sm := resolvedSummary env html url
      match get_doc_keywords env html content with
      | (evK, .error e) => ([Event.httpGet url] ++ sm.1 ++ evK, .error e)
      | (evK, .ok _) =>
        ([Event.httpGet url] ++ sm.1 ++ evK ++ [Event.wroteFile linkfilename],
         .ok (fs.writeFile linkfilename (linkpostText title timestamp url sm.2 content)))

/-- Draft classification in `sync`: a title of None or the empty string
makes the item a draft. -/
def isDraftOf : Option String → Bool
  | none => true
  | some t => t == ""

/-- Timestamp determination in `sync`: the parsed upstream time-added value
when present, else the current time at processing. -/
def itemTimestamp (now : Datetime) (item : Item) : Datetime :=
  match item.time_added with
  | some t => utcfromtimestamp t
  | none => now

/-- Mutable locals of the `sync` loop: the filesystem, the two counters and
the accumulated event trace. -/
structure LoopState where
  fs : FS
  n_skipped : Nat
  n_drafts : Nat
  events : List Event
deriving DecidableEq

/-- Translation of the per-item loop of `sync`. Items lacking a truthy url
or id are counted skipped and passed over; otherwise the item is
classified, timestamped and materialized. An IOError from
`create_linkpost` is caught and the loop continues; any other error
propagates, aborting the remaining items. -/
def syncLoop (env : Env) (config : Config) (now : Datetime) :
    List Item → LoopState → LoopState × Option PyErr
  | [], st => (st, none)
  | item :: rest, st =>
    if !(pyTruthyStr item.given_url && pyTruthyStr item.resolved_id) then
      syncLoop env config now rest { st with n_skipped := st.n_skipped + 1 }
    else
      let title := item.resolved_title
      let is_draft := isDraftOf title
      let st1 := if is_draft then { st with n_drafts := st.n_drafts + 1 } else st
      let timestamp := itemTimestamp now item
      match create_linkpost env config st1.fs (item.resolved_id.getD "") title
        (item.given_url.getD "") timestamp is_draft with
      | (tr, .ok fs2) =>
        syncLoop env config now rest { st1 with fs := fs2, events := st1.events ++ tr }
      | (tr, .error (.ioError _)) =>
        syncLoop env config now rest { st1 with events := st1.events ++ tr }
      | (tr, .error e) => ({ st1 with events := st1.events ++ tr }, some e)

/-- Final report of a `sync` run: the posts/drafts/skipped line printed for
a non-empty batch, or the no-new-bookmarks message. -/
inductive SyncReport where
  | done (posts : Int) (drafts : Nat) (skipped : Nat)
  | noNewBookmarks
deriving DecidableEq

/-- Observable outcome of a `sync` invocation: the in-memory config, the
config persisted by `save_config` (none when `save_config` was never
reached), the filesystem, the event trace and the result or the
propagated error. -/
structure SyncOut where
  config : Config
  savedConfig : Option Config
  fs : FS
  events : List Event
  result : Except PyErr SyncReport

/-- Translation of `sync`: authentication guard, fetch via the feed client,
per-item loop, then cursor advance and persistence, which only happen when
the batch is non-empty and the loop finished without a propagating
error. -/
def sync (env : Env) (now : Datetime) (config : Config) (fs : FS) : SyncOut :=
  if config.pocket_access_token.isNone then
    ⟨config, none, fs, [],
      .error (.runtimeError "Please authenticate the app before syncing.")⟩
  else
    let response := env.getList config
    if 0 < response.list.length then
      match syncLoop env config now response.list ⟨fs, 0, 0, []⟩ with
      | (st, none) =>
        let config2 := { config with pocket_since := some response.since }
        ⟨config2, some config2, st.fs, st.events,
          .ok (.done ((response.list.length : Int) - (st.n_drafts : Int) -
            (st.n_skipped : Int)) st.n_drafts st.n_skipped)⟩
      | (st, some e) => ⟨config, none, st.fs, st.events, .error e⟩
    else
      ⟨config, none, fs, [], .ok .noNewBookmarks⟩

/-- Specification-side resolver chain: the first non-empty candidate list,
in order, of the fallback chain. -/
def firstNonEmptyList (ls : List (List String)) : List String :=
  (ls.find? (fun l => !l.isEmpty)).getD []

/-- Page with no meta tags at all. -/
def htmlEmpty : Html := ⟨[]⟩

/-- Page with a description meta tag whose content is the scenario string. -/
def htmlDesc : Html := ⟨[("description", "Short desc")]⟩

/-- Page with a non-empty keywords meta tag. -/
def htmlKw : Html := ⟨[("keywords", "alpha, beta")]⟩

/-- Scenario item A: valid url and id, no title (draft), epoch timestamp. -/
def itemA : Item := ⟨some "http://a", some "A1", none, some 0⟩

/-- Scenario item B: valid url and id, titled, timestamp one day later. -/
def itemB : Item := ⟨some "http://b", some "B1", some "Btitle", some 86400⟩

/-- Scenario item C: missing url. -/
def itemC : Item := ⟨none, some "C1", some "Ctitle", none⟩

/-- Scenario environment: item B resolves to the page with the description
meta tag, everything else to the empty page; the feed client returns the
three-item batch with new cursor 777. -/
def envC : Env :=
  { httpGet := fun u => if u == "http://b" then htmlDesc else htmlEmpty
    documentSummary := fun _ => "BODY"
    textRankSummary := fun _ _ => "SUMMARY"
    textContent := fun s => s
    rakeRun := fun _ => []
    getList := fun _ => ⟨[itemA, itemB, itemC], 777⟩ }

/-- Scenario configuration: authenticated, cursor 5, post dir p, draft dir d. -/
def cfgC : Config := ⟨some "tok", some 5, some "p", some "d"⟩

/-- Scenario filesystem: both destination directories exist, no files. -/
def fsC : FS := ⟨["p", "d"], []⟩

/-- Scenario current time. -/
def nowC : Datetime := ⟨2026, 1, 2, 3, 4, 5⟩

/-- First sync run of the three-item scenario. -/
def run1 : SyncOut := sync envC nowC cfgC fsC

/-- Second sync run of the exact same batch with the unchanged cursor,
against the filesystem left by the first run. -/
def run2 : SyncOut := sync envC nowC cfgC run1.fs

/-- Environment whose feed client returns an empty batch with new cursor 99. -/
def envE : Env := { envC with getList := fun _ => ⟨[], 99⟩ }

/-- Environment whose feed client returns the single item A with cursor 42. -/
def envA : Env := { envC with getList := fun _ => ⟨[itemA], 42⟩ }

/-- Filesystem with no directories, for the destination-missing scenario. -/
def fsNoDirs : FS := ⟨[], []⟩

/-- Filesystem resulting from a first successful materialization of item A. -/
def c1fs2 : FS :=
  ((create_linkpost envC cfgC fsC "A1" none "http://a" (utcfromtimestamp 0) true).2.toOption).getD fsC

/-- Loop state at the start of a batch over the scenario filesystem. -/
def st0 : LoopState := ⟨fsC, 0, 0, []⟩

/-- Loop state at the start of a batch over the filesystem of the first run. -/
def st2 : LoopState := ⟨run1.fs, 0, 0, []⟩

/-- Loop state at the start of a batch over the directory-less filesystem. -/
def stN : LoopState := ⟨fsNoDirs, 0, 0, []⟩

/-- Filesystem resulting from a successful materialization of item B. -/
def c4fs2 : FS :=
  ((create_linkpost envC cfgC fsC "B1" (some "Btitle") "http://b"
    (utcfromtimestamp 86400) false).2.toOption).getD fsC

/-- Filesystem resulting from materializing a titled item with the upstream
timestamp 1439974162. -/
def c9fs2 : FS :=
  ((create_linkpost envC cfgC fsC "D1" (some "Dtitle") "http://a"
    (utcfromtimestamp 1439974162) false).2.toOption).getD fsC

/-- Filesystem in which the post-directory file for item B already exists. -/
def fsPre : FS := ⟨["p", "d"], [("p/1970-01-02-B1.markdown", "old")]⟩

section Helpers

variable {env env2 : Env} {config cfg : Config} {fs fs2 : FS} {item_id : String}
  {title : Option String} {url : String} {ts : Datetime} {d : Bool}
  {ev : List Event} {now : Datetime} {e : PyErr}

/-- Helper: a missing destination directory makes `create_linkpost` raise
RuntimeError immediately, before any external invocation. -/
theorem create_linkpost_destMissing
    (h : fs.pathExists (linkpostDir config d) = false) :
    create_linkpost env config fs item_id title url ts d =
      ([], .error (.runtimeError (destinationMissingMsg (linkpostDir config d)))) := by
  simp [create_linkpost, h]

/-- Helper: an existing target path makes `create_linkpost` raise IOError
immediately, before any external invocation. -/
theorem create_linkpost_alreadyExists
    (h1 : fs.pathExists (linkpostDir config d) = true)
    (h2 : fs.pathExists (linkfileName config d ts item_id) = true) :
    create_linkpost env config fs item_id title url ts d =
      ([], .error (.ioError (overwriteMsg (linkfileName config d ts item_id)))) := by
  simp [create_linkpost, h1, h2]

/-- Helper: inversion of a successful `create_linkpost` run. The directory
existed, the target path did not, and the new filesystem is the old one
with exactly the rendered document appended at the computed path. -/
theorem create_linkpost_ok_inv
    (h : create_linkpost env config fs item_id title url ts d = (ev, .ok fs2)) :
    fs.pathExists (linkpostDir config d) = true ∧
    fs.pathExists (linkfileName config d ts item_id) = false ∧
    fs2 = fs.writeFile (linkfileName config d ts item_id)
      (linkpostText title ts url (resolvedSummary env (env.httpGet url) url).2
        (env.documentSummary (env.httpGet url))) := by
  by_cases h1 : fs.pathExists (linkpostDir config d)
  · by_cases h2 : fs.pathExists (linkfileName config d ts item_id)
    · simp [create_linkpost, h1, h2] at h
    · refine ⟨h1, by simp [h2], ?_⟩
      simp only [create_linkpost, h1, h2] at h
      simp only [Bool.not_true, Bool.false_eq_true, if_false, if_neg] at h
      rcases hk : get_doc_keywords env (env.httpGet url)
          (env.documentSummary (env.httpGet url)) with ⟨evK, r⟩
      cases r with
      | error e2 => simp [hk] at h
      | ok kws =>
        simp [hk] at h
        exact h.2.symm
  · simp [create_linkpost, h1] at h

/-- Helper: writing a file adds one file under the written path. -/
theorem pathCount_writeFile_same {p c : String} :
    (fs.writeFile p c).pathCount p = fs.pathCount p + 1 := by
  simp [FS.writeFile, FS.pathCount, List.filter_append]

/-- Helper: a path that does not exist stores no file. -/
theorem pathCount_zero_of_not_exists {p : String}
    (h : fs.pathExists p = false) : fs.pathCount p = 0 := by
  simp only [FS.pathExists, Bool.or_eq_false_iff] at h
  simp only [FS.pathCount, List.length_eq_zero]
  rw [List.filter_eq_nil_iff]
  intro a ha
  have := h.2
  rw [List.any_eq_false] at this
  exact this a ha

/-- Helper: existing paths keep existing after a write. -/
theorem pathExists_writeFile_mono {p q c : String}
    (h : fs.pathExists p = true) : (fs.writeFile q c).pathExists p = true := by
  simp only [FS.pathExists, FS.writeFile, List.any_append, Bool.or_eq_true] at h ⊢
  rcases h with h | h
  · exact Or.inl h
  · exact Or.inr (Or.inl h)

/-- Helper: the path just written exists. -/
theorem pathExists_writeFile_self {p c : String} :
    (fs.writeFile p c).pathExists p = true := by
  simp [FS.pathExists, FS.writeFile, List.any_append]

/-- Helper: when `sync` propagates an error, the in-memory configuration is
untouched and `save_config` was never called. -/
theorem sync_error_state
    (h : (sync env now cfg fs).result = .error e) :
    (sync env now cfg fs).config = cfg ∧ (sync env now cfg fs).savedConfig = none := by
  by_cases htok : cfg.pocket_access_token.isNone
  · simp [sync, htok]
  · by_cases hn : 0 < (env.getList cfg).list.length
    · rcases hl : syncLoop env cfg now (env.getList cfg).list ⟨fs, 0, 0, []⟩ with ⟨st, oe⟩
      cases oe with
      | none => simp [sync, htok, hn, hl] at h
      | some e2 => simp [sync, htok, hn, hl]
    · simp [sync, htok, hn]

end Helpers

/-- C1: Materializing the same (date-of-timestamp, id, isDraft) key twice
yields exactly one file on disk: after a successful first materialization
the computed path stores exactly one file, and a second attempt with the
same key (any title, url, environment, and any timestamp with the same
date) raises the already-exists IOError with an empty trace, hence before
any fetch, extraction or write, and the path is never rewritten. -/
theorem C1_materialize_twice_single_file
    (env env2 : Env) (config : Config) (fs fs2 : FS) (item_id : String)
    (title title2 : Option String) (url url2 : String) (ts ts2 : Datetime)
    (d : Bool) (ev : List Event)
    (hdate : strftimeDate ts2 = strftimeDate ts)
    (h : create_linkpost env config fs item_id title url ts d = (ev, .ok fs2)) :
    fs2.pathCount (linkfileName config d ts item_id) = 1 ∧
    create_linkpost env2 config fs2 item_id title2 url2 ts2 d =
      ([], .error (.ioError (overwriteMsg (linkfileName config d ts item_id)))) := by
  obtain ⟨h1, h2, h3⟩ := create_linkpost_ok_inv h
  have hfn : linkfileName config d ts2 item_id = linkfileName config d ts item_id := by
    simp [linkfileName, hdate]
  constructor
  · rw [h3, pathCount_writeFile_same, pathCount_zero_of_not_exists h2]
  · have hdir2 : fs2.pathExists (linkpostDir config d) = true := by
      rw [h3]; exact pathExists_writeFile_mono h1
    have hfile2 : fs2.pathExists (linkfileName config d ts2 item_id) = true := by
      rw [hfn, h3]; exact pathExists_writeFile_self
    rw [← hfn]
    exact create_linkpost_alreadyExists hdir2 hfile2

/-- Witness for C1 at the scenario draft item A. -/
theorem C1_witness :
    c1fs2.pathCount (linkfileName cfgC true (utcfromtimestamp 0) "A1") = 1 ∧
    create_linkpost envC cfgC c1fs2 "A1" none "http://a" (utcfromtimestamp 0) true =
      ([], .error (.ioError (overwriteMsg (linkfileName cfgC true (utcfromtimestamp 0) "A1")))) :=
  C1_materialize_twice_single_file envC envC cfgC fsC c1fs2 "A1" none none
    "http://a" "http://a" (utcfromtimestamp 0) (utcfromtimestamp 0) true
    [Event.httpGet "http://a", Event.summarizeInvoked "http://a", Event.rakeInvoked,
      Event.wroteFile "d/1970-01-01-A1.markdown"] rfl rfl

/-- C3: an item lacking a truthy url or id is skipped: the loop continues on
the remaining items with only the skipped counter incremented, leaving the
filesystem, the draft counter and the event trace (hence fetches and
extractions) untouched, and raising no error for the item. -/
theorem C3_skip_incomplete_item (env : Env) (config : Config) (now : Datetime)
    (item : Item) (rest : List Item) (st : LoopState)
    (h : pyTruthyStr item.given_url = false ∨ pyTruthyStr item.resolved_id = false) :
    syncLoop env config now (item :: rest) st =
      syncLoop env config now rest { st with n_skipped := st.n_skipped + 1 } := by
  have hcond : (pyTruthyStr item.given_url && pyTruthyStr item.resolved_id) = false := by
    rcases h with h | h <;> simp [h]
  simp [syncLoop, hcond]

/-- Witness for C3 at the scenario item C, which has no url. -/
theorem C3_witness :
    syncLoop envC cfgC nowC [itemC] st0 =
      syncLoop envC cfgC nowC [] { st0 with n_skipped := st0.n_skipped + 1 } :=
  C3_skip_incomplete_item envC cfgC nowC itemC [] st0 (Or.inl rfl)

/-- C5: code bug. With a non-empty keywords meta tag, `get_doc_keywords`
raises AttributeError instead of splitting the tag content on commas: the
xpath query returns a Python list, and the split attribute is looked up on
the list rather than on its string content. The RAKE extractor is indeed
not invoked (the trace is empty), but no keyword list is returned. -/
theorem C5_keywords_meta_attribute_error :
    get_doc_keywords envC htmlKw "article" =
      ([], .error (.attributeError "\x27list\x27 object has no attribute \x27split\x27")) := rfl

/-- C6: isDraft is true exactly when the title is absent or empty, and a
successful materialization of an item classified this way writes its file
under the draft directory when isDraft holds and under the post directory
otherwise. -/
theorem C6_isdraft_iff_title_empty :
    (∀ title : Option String, isDraftOf title = true ↔ (title = none ∨ title = some "")) ∧
    (∀ (env : Env) (config : Config) (fs : FS) (item_id : String)
       (title : Option String) (url : String) (ts : Datetime) (ev : List Event) (fs2 : FS),
       create_linkpost env config fs item_id title url ts (isDraftOf title) = (ev, .ok fs2) →
       fs2.files = fs.files ++
         [((if isDraftOf title then config.linkpost_draft_dir.getD "_drafts/linkposts"
            else config.linkpost_post_dir.getD "_posts/linkposts") ++ "/" ++
             strftimeDate ts ++ "-" ++ item_id ++ ".markdown",
           linkpostText title ts url (resolvedSummary env (env.httpGet url) url).2
             (env.documentSummary (env.httpGet url)))]) := by
  constructor
  · intro title
    cases title with
    | none => simp [isDraftOf]
    | some t => simp [isDraftOf]
  · intro env config fs item_id title url ts ev fs2 h
    obtain ⟨-, -, h3⟩ := create_linkpost_ok_inv h
    rw [h3]
    cases hd : isDraftOf title <;>
      simp [FS.writeFile, linkfileName, linkpostDir, hd]

/-- Witness for C6 at the empty title and at the scenario draft item A. -/
theorem C6_witness :
    (isDraftOf (some "") = true ↔ ((some "" : Option String) = none ∨ (some "" : Option String) = some "")) ∧
    c1fs2.files = fsC.files ++
      [((if isDraftOf (none : Option String) then cfgC.linkpost_draft_dir.getD "_drafts/linkposts"
         else cfgC.linkpost_post_dir.getD "_posts/linkposts") ++ "/" ++
          strftimeDate (utcfromtimestamp 0) ++ "-" ++ "A1" ++ ".markdown",
        linkpostText none (utcfromtimestamp 0) "http://a"
          (resolvedSummary envC (envC.httpGet "http://a") "http://a").2
          (envC.documentSummary (envC.httpGet "http://a")))] :=
  ⟨C6_isdraft_iff_title_empty.1 (some ""),
   C6_isdraft_iff_title_empty.2 envC cfgC fsC "A1" none "http://a" (utcfromtimestamp 0)
     [Event.httpGet "http://a", Event.summarizeInvoked "http://a", Event.rakeInvoked,
       Event.wroteFile "d/1970-01-01-A1.markdown"] c1fs2 rfl⟩

/-- C10: when the computed target path already exists, `create_linkpost`
raises the already-exists IOError with an empty event trace: no HTTP fetch
of the article and no extraction strategy runs. -/
theorem C10_exists_short_circuit (env : Env) (config : Config) (fs : FS)
    (item_id : String) (title : Option String) (url : String) (ts : Datetime) (d : Bool)
    (h1 : fs.pathExists (linkpostDir config d) = true)
    (h2 : fs.pathExists (linkfileName config d ts item_id) = true) :
    create_linkpost env config fs item_id title url ts d =
      ([], .error (.ioError (overwriteMsg (linkfileName config d ts item_id)))) :=
  create_linkpost_alreadyExists h1 h2

/-- Witness for C10 at a filesystem already holding the item B file. -/
theorem C10_witness :
    create_linkpost envC cfgC fsPre "B1" (some "Btitle") "http://b"
      (utcfromtimestamp 86400) false =
      ([], .error (.ioError (overwriteMsg (linkfileName cfgC false (utcfromtimestamp 86400) "B1")))) :=
  C10_exists_short_circuit envC cfgC fsPre "B1" (some "Btitle") "http://b"
    (utcfromtimestamp 86400) false rfl rfl

/-- C2 counterexample: for the empty batch the feed client returns the new
cursor 99, but `sync` leaves the cursor at its prior value 5 instead of
setting it to the returned value, against the claim that this holds for
every batch. -/
theorem C2_counterexample_empty_batch :
    (sync envE nowC cfgC fsC).config.pocket_since = some 5 ∧
    (sync envE nowC cfgC fsC).config.pocket_since ≠ some ((envE.getList cfgC).since) :=
  ⟨rfl, by decide⟩

/-- C2 (amended): for every non-empty batch whose items were all attempted
(a done report), the cursor is set to exactly the feed-client value and
that configuration is persisted; when processing terminates mid-batch with
a propagating error, the cursor is neither advanced nor persisted; and an
empty batch also leaves the cursor unchanged. -/
theorem C2_cursor_advance_amended (env : Env) (now : Datetime) (cfg : Config) (fs : FS) :
    (∀ (s : Int) (dr sk : Nat), (sync env now cfg fs).result = .ok (.done s dr sk) →
       (sync env now cfg fs).config.pocket_since = some ((env.getList cfg).since) ∧
       (sync env now cfg fs).savedConfig = some ((sync env now cfg fs).config)) ∧
    (∀ e : PyErr, (sync env now cfg fs).result = .error e →
       (sync env now cfg fs).config = cfg ∧ (sync env now cfg fs).savedConfig = none) ∧
    ((sync env now cfg fs).result = .ok .noNewBookmarks →
       (sync env now cfg fs).config = cfg ∧ (sync env now cfg fs).savedConfig = none) := by
  refine ⟨?_, fun e h => sync_error_state h, ?_⟩ <;>
  · by_cases htok : cfg.pocket_access_token.isNone
    · simp [sync, htok]
    · by_cases hn : 0 < (env.getList cfg).list.length
      · rcases hl : syncLoop env cfg now (env.getList cfg).list ⟨fs, 0, 0, []⟩ with ⟨st, oe⟩
        cases oe with
        | none => simp [sync, htok, hn, hl]
        | some e2 => simp [sync, htok, hn, hl]
      · simp [sync, htok, hn]

/-- Witness for C2: the scenario batch advances and persists the cursor; a
destination-missing abort leaves the configuration untouched; the empty
batch leaves it untouched. -/
theorem C2_witness :
    ((sync envC nowC cfgC fsC).config.pocket_since = some ((envC.getList cfgC).since) ∧
     (sync envC nowC cfgC fsC).savedConfig = some ((sync envC nowC cfgC fsC).config)) ∧
    ((sync envA nowC cfgC fsNoDirs).config = cfgC ∧
     (sync envA nowC cfgC fsNoDirs).savedConfig = none) ∧
    ((sync envE nowC cfgC fsC).config = cfgC ∧
     (sync envE nowC cfgC fsC).savedConfig = none) :=
  ⟨(C2_cursor_advance_amended envC nowC cfgC fsC).1 1 1 1 rfl,
   (C2_cursor_advance_amended envA nowC cfgC fsNoDirs).2.1
     (.runtimeError (destinationMissingMsg "d")) rfl,
   (C2_cursor_advance_amended envE nowC cfgC fsC).2.2 rfl⟩

/-- C8: a missing destination directory makes `create_linkpost` fail with
the destination-missing RuntimeError before any external work; inside the
batch loop, a valid item hitting this error aborts the loop at once, so the
remaining items are not processed; and any error propagating out of `sync`
leaves the cursor unadvanced and unpersisted. -/
theorem C8_destination_missing_fatal :
    (∀ (env : Env) (config : Config) (fs : FS) (item_id : String)
       (title : Option String) (url : String) (ts : Datetime) (d : Bool),
       fs.pathExists (linkpostDir config d) = false →
       create_linkpost env config fs item_id title url ts d =
         ([], .error (.runtimeError (destinationMissingMsg (linkpostDir config d))))) ∧
    (∀ (env : Env) (config : Config) (now : Datetime) (item : Item) (rest : List Item)
       (st : LoopState),
       pyTruthyStr item.given_url = true → pyTruthyStr item.resolved_id = true →
       st.fs.pathExists (linkpostDir config (isDraftOf item.resolved_title)) = false →
       syncLoop env config now (item :: rest) st =
         ((if isDraftOf item.resolved_title
           then { st with n_drafts := st.n_drafts + 1 } else st),
          some (.runtimeError (destinationMissingMsg
            (linkpostDir config (isDraftOf item.resolved_title)))))) ∧
    (∀ (env : Env) (now : Datetime) (cfg : Config) (fs : FS) (e : PyErr),
       (sync env now cfg fs).result = .error e →
       (sync env now cfg fs).config = cfg ∧ (sync env now cfg fs).savedConfig = none) := by
  refine ⟨fun env config fs item_id title url ts d h => create_linkpost_destMissing h,
    ?_, fun env now cfg fs e h => sync_error_state h⟩
  intro env config now item rest st hu hi hdir
  have hcond : (pyTruthyStr item.given_url && pyTruthyStr item.resolved_id) = true := by
    simp [hu, hi]
  have hc := @create_linkpost_destMissing env config st.fs (item.resolved_id.getD "")
    item.resolved_title (item.given_url.getD "") (itemTimestamp now item)
    (isDraftOf item.resolved_title) hdir
  cases hd : isDraftOf item.resolved_title <;>
    simp [syncLoop, hcond, hd, hd ▸ hc]

/-- Witness for C8 at the scenario with no directories. -/
theorem C8_witness :
    (create_linkpost envA cfgC fsNoDirs "A1" none "http://a" (utcfromtimestamp 0) true =
       ([], .error (.runtimeError (destinationMissingMsg (linkpostDir cfgC true))))) ∧
    (syncLoop envA cfgC nowC [itemA] stN =
       ((if isDraftOf itemA.resolved_title
         then { stN with n_drafts := stN.n_drafts + 1 } else stN),
        some (.runtimeError (destinationMissingMsg
          (linkpostDir cfgC (isDraftOf itemA.resolved_title)))))) ∧
    ((sync envA nowC cfgC fsNoDirs).config = cfgC ∧
     (sync envA nowC cfgC fsNoDirs).savedConfig = none) :=
  ⟨C8_destination_missing_fatal.1 envA cfgC fsNoDirs "A1" none "http://a"
     (utcfromtimestamp 0) true rfl,
   C8_destination_missing_fatal.2.1 envA cfgC nowC itemA [] stN rfl rfl rfl,
   C8_destination_missing_fatal.2.2 envA nowC cfgC fsNoDirs
     (.runtimeError (destinationMissingMsg "d")) rfl⟩

/-- Helper: the keyword extractor emits no event or exactly the RAKE
invocation. -/
theorem get_doc_keywords_trace (env : Env) (html : Html) (dom : String) :
    (get_doc_keywords env html dom).1 = [] ∨
    (get_doc_keywords env html dom).1 = [Event.rakeInvoked] := by
  by_cases h : (xpathMetaContent html "keywords").isEmpty <;>
    simp [get_doc_keywords, h]

/-- C4 counterexample: for a page whose description meta tag content is
"Short desc", the excerpt written into the generated file is the Python
string form of the xpath result list, not the bare string "Short desc". -/
theorem C4_counterexample_excerpt_listrepr :
    pyStrSummary (.strList ["Short desc"]) = "[u\x27Short desc\x27]" ∧
    pyStrSummary (.strList ["Short desc"]) ≠ "Short desc" ∧
    c4fs2.files = [("p/1970-01-02-B1.markdown",
      linkpostText (some "Btitle") (utcfromtimestamp 86400) "http://b"
        (.strList ["Short desc"]) "BODY")] :=
  ⟨rfl, by decide, rfl⟩

/-- C4 (amended): the meta-description resolution is the first non-empty
xpath result among description, og:description and twitter:description;
when any of those is non-empty the TextRank summarizer is never invoked;
and the excerpt written for such a page is the Python string form of that
result list (so a description content of "Short desc" is written as its
one-element-list form), with the generated summary used only when all
three queries are empty. -/
theorem C4_excerpt_chain_amended :
    (∀ h : Html, get_meta_desc h =
       firstNonEmptyList [xpathMetaContent h "description",
         xpathMetaContent h "og:description", xpathMetaContent h "twitter:description"]) ∧
    (∀ (env : Env) (config : Config) (fs : FS) (item_id : String) (title : Option String)
       (url : String) (ts : Datetime) (d : Bool) (ev : List Event) (r : Except PyErr FS),
       create_linkpost env config fs item_id title url ts d = (ev, r) →
       get_meta_desc (env.httpGet url) ≠ [] →
       Event.summarizeInvoked url ∉ ev) ∧
    (∀ (env : Env) (config : Config) (fs : FS) (item_id : String) (title : Option String)
       (url : String) (ts : Datetime) (d : Bool) (ev : List Event) (fs2 : FS),
       create_linkpost env config fs item_id title url ts d = (ev, .ok fs2) →
       get_meta_desc (env.httpGet url) ≠ [] →
       fs2.files = fs.files ++ [(linkfileName config d ts item_id,
         linkpostText title ts url (.strList (get_meta_desc (env.httpGet url)))
           (env.documentSummary (env.httpGet url)))]) := by
  refine ⟨?_, ?_, ?_⟩
  · intro h
    rcases h1 : xpathMetaContent h "description" with _ | ⟨a, l⟩ <;>
      rcases h2 : xpathMetaContent h "og:description" with _ | ⟨b, m⟩ <;>
        rcases h3 : xpathMetaContent h "twitter:description" with _ | ⟨c, k⟩ <;>
          simp [get_meta_desc, firstNonEmptyList, List.find?, h1, h2, h3]
  · intro env config fs item_id title url ts d ev r h hdesc
    have hsm : (resolvedSummary env (env.httpGet url) url).1 = [] := by
      rcases hgd : get_meta_desc (env.httpGet url) with _ | ⟨a, l⟩
      · exact absurd hgd hdesc
      · simp [resolvedSummary, hgd]
    by_cases h1 : fs.pathExists (linkpostDir config d)
    · by_cases h2 : fs.pathExists (linkfileName config d ts item_id)
      · rw [create_linkpost_alreadyExists h1 h2] at h
        rw [Prod.mk.injEq] at h
        obtain ⟨hev, -⟩ := h
        subst hev
        simp
      · have hevK := get_doc_keywords_trace env (env.httpGet url)
          (env.documentSummary (env.httpGet url))
        rcases hk : get_doc_keywords env (env.httpGet url)
            (env.documentSummary (env.httpGet url)) with ⟨evK, rk⟩
        rw [hk] at hevK
        dsimp only at hevK
        simp only [create_linkpost, h1, h2] at h
        simp only [Bool.not_true, Bool.false_eq_true, if_false, if_neg] at h
        rw [hk] at h
        cases rk with
        | error e2 =>
          simp only [Prod.mk.injEq] at h
          obtain ⟨hev, -⟩ := h
          subst hev
          rcases hevK with h' | h' <;> simp [hsm, h']
        | ok kws =>
          simp only [Prod.mk.injEq] at h
          obtain ⟨hev, -⟩ := h
          subst hev
          rcases hevK with h' | h' <;> simp [hsm, h']
    · rw [create_linkpost_destMissing (by simpa using h1)] at h
      rw [Prod.mk.injEq] at h
      obtain ⟨hev, -⟩ := h
      subst hev
      simp
  · intro env config fs item_id title url ts d ev fs2 h hdesc
    obtain ⟨-, -, h3⟩ := create_linkpost_ok_inv h
    rw [h3]
    rcases hgd : get_meta_desc (env.httpGet url) with _ | ⟨a, l⟩
    · exact absurd hgd hdesc
    · simp [FS.writeFile, resolvedSummary, hgd]

/-- Witness for C4 at the scenario page with the "Short desc" description. -/
theorem C4_witness :
    (get_meta_desc htmlDesc =
       firstNonEmptyList [xpathMetaContent htmlDesc "description",
         xpathMetaContent htmlDesc "og:description",
         xpathMetaContent htmlDesc "twitter:description"]) ∧
    (Event.summarizeInvoked "http://b" ∉
       [Event.httpGet "http://b", Event.rakeInvoked,
        Event.wroteFile "p/1970-01-02-B1.markdown"]) ∧
    c4fs2.files = fsC.files ++ [(linkfileName cfgC false (utcfromtimestamp 86400) "B1",
      linkpostText (some "Btitle") (utcfromtimestamp 86400) "http://b"
        (.strList (get_meta_desc (envC.httpGet "http://b")))
        (envC.documentSummary (envC.httpGet "http://b")))] :=
  ⟨C4_excerpt_chain_amended.1 htmlDesc,
   C4_excerpt_chain_amended.2.1 envC cfgC fsC "B1" (some "Btitle") "http://b"
     (utcfromtimestamp 86400) false
     [Event.httpGet "http://b", Event.rakeInvoked,
       Event.wroteFile "p/1970-01-02-B1.markdown"] (.ok c4fs2) rfl (by decide),
   C4_excerpt_chain_amended.2.2 envC cfgC fsC "B1" (some "Btitle") "http://b"
     (utcfromtimestamp 86400) false
     [Event.httpGet "http://b", Event.rakeInvoked,
       Event.wroteFile "p/1970-01-02-B1.markdown"] c4fs2 rfl (by decide)⟩

/-- C7 counterexample: re-running the exact scenario batch reports 1 post,
1 draft and 1 skipped, not the 0 posts, 0 drafts and 2 skipped the claim
requires: the two already-materialized items are not added to the skipped
counter. -/
theorem C7_counterexample_rerun_counts :
    run2.result = .ok (.done 1 1 1) ∧
    SyncReport.done 1 1 1 ≠ SyncReport.done 0 0 2 :=
  ⟨rfl, by decide⟩

/-- C7 (amended): an item whose materialization raises the already-exists
IOError is passed over and the loop continues with the remaining items,
but the skipped counter is not incremented for it — only the draft counter
was bumped when the item is a draft; consequently the re-run of the
scenario batch reports 1 post, 1 draft and 1 skipped, the skip counting
only the missing-url item. -/
theorem C7_already_exists_continue_amended :
    (∀ (env : Env) (config : Config) (now : Datetime) (item : Item) (rest : List Item)
       (st : LoopState) (tr : List Event) (msg : String),
       pyTruthyStr item.given_url = true → pyTruthyStr item.resolved_id = true →
       create_linkpost env config st.fs (item.resolved_id.getD "") item.resolved_title
         (item.given_url.getD "") (itemTimestamp now item) (isDraftOf item.resolved_title) =
         (tr, .error (.ioError msg)) →
       syncLoop env config now (item :: rest) st =
         syncLoop env config now rest
           { st with
               n_drafts := st.n_drafts + (if isDraftOf item.resolved_title then 1 else 0),
               events := st.events ++ tr }) ∧
    run2.result = .ok (.done 1 1 1) := by
  refine ⟨?_, rfl⟩
  intro env config now item rest st tr msg hu hi hc
  have hcond : (pyTruthyStr item.given_url && pyTruthyStr item.resolved_id) = true := by
    simp [hu, hi]
  cases hd : isDraftOf item.resolved_title <;>
    simp [syncLoop, hcond, hd, hd ▸ hc]

/-- Witness for C7 at the re-run of the scenario draft item A. -/
theorem C7_witness :
    syncLoop envC cfgC nowC [itemA] st2 =
      syncLoop envC cfgC nowC []
        { st2 with
            n_drafts := st2.n_drafts + (if isDraftOf itemA.resolved_title then 1 else 0),
            events := st2.events ++ [] } :=
  C7_already_exists_continue_amended.1 envC cfgC nowC itemA [] st2 []
    (overwriteMsg "d/1970-01-01-A1.markdown") rfl rfl rfl

/-- Helper: width of the two-digit field for in-range values. -/
theorem pad2_data_length {n : Nat} (h : n < 100) : (pad2 n).data.length = 2 := by
  simp [pad2, h]

/-- Helper: width of the four-digit field for in-range values. -/
theorem pad4_data_length {n : Nat} (h : n < 10000) : (pad4 n).data.length = 4 := by
  simp [pad4, h]

/-- Helper: the ISO date-time rendering of an in-range naive datetime has
exactly the 19 characters of the date-time core: the %z directive
contributes nothing. -/
theorem strftimeIsoZ_data_length {ts : Datetime}
    (hy : ts.year < 10000) (hm : ts.month < 100) (hd : ts.day < 100)
    (hh : ts.hour < 100) (hmi : ts.minute < 100) (hs : ts.second < 100) :
    (strftimeIsoZ ts).data.length = 19 := by
  simp [strftimeIsoZ, strftimeDate, percentZ, String.data_append, List.length_append,
    pad4_data_length hy, pad2_data_length hm, pad2_data_length hd,
    pad2_data_length hh, pad2_data_length hmi, pad2_data_length hs]

/-- C9 counterexample: the date field written for the upstream timestamp
1439974162 is the 19-character offset-less rendering, and the generated
document for a titled item embeds exactly that date, against the claim
that the date field carries a UTC offset. -/
theorem C9_counterexample_no_offset :
    strftimeIsoZ (utcfromtimestamp 1439974162) = "2015-08-19T08:49:22" ∧
    hasUtcOffsetSuffix (strftimeIsoZ (utcfromtimestamp 1439974162)) = false ∧
    c9fs2.files = [("p/2015-08-19-D1.markdown",
      "---\nlayout: post\ntype: \x27reference\x27\ntitle: Dtitle\ndate: 2015-08-19T08:49:22\nref: http://a\nexcerpt: SUMMARY\n---\n\nBODY\n\n[View Original](http://a)\n")] :=
  ⟨rfl, rfl, rfl⟩

/-- C9 (amended): every successful materialization writes, at the computed
path, the front-matter document with layout post, reference type, title,
date, ref url and excerpt, followed by the extracted body and the View
Original line; the timestamp is the parsed upstream time-added value when
present and the current time otherwise; and the date field rendered for an
in-range datetime carries no UTC offset, since %z renders empty on the
naive datetimes the program builds. -/
theorem C9_front_matter_amended :
    (∀ (env : Env) (config : Config) (fs : FS) (item_id : String) (title : Option String)
       (url : String) (ts : Datetime) (d : Bool) (ev : List Event) (fs2 : FS),
       create_linkpost env config fs item_id title url ts d = (ev, .ok fs2) →
       fs2.files = fs.files ++ [(linkfileName config d ts item_id,
         "---\nlayout: post\ntype: \x27reference\x27\ntitle: " ++ pyStrOptStr title ++
         "\ndate: " ++ strftimeIsoZ ts ++ "\nref: " ++ url ++
         "\nexcerpt: " ++ pyStrSummary (resolvedSummary env (env.httpGet url) url).2 ++
         "\n---\n\n" ++ env.documentSummary (env.httpGet url) ++
         "\n\n[View Original](" ++ url ++ ")\n")]) ∧
    (∀ (now : Datetime) (item : Item) (t : Nat),
       (item.time_added = some t → itemTimestamp now item = utcfromtimestamp t) ∧
       (item.time_added = none → itemTimestamp now item = now)) ∧
    (∀ ts : Datetime, ts.year < 10000 → ts.month < 100 → ts.day < 100 →
       ts.hour < 100 → ts.minute < 100 → ts.second < 100 →
       hasUtcOffsetSuffix (strftimeIsoZ ts) = false) := by
  refine ⟨?_, ?_, ?_⟩
  · intro env config fs item_id title url ts d ev fs2 h
    obtain ⟨-, -, h3⟩ := create_linkpost_ok_inv h
    rw [h3]
    simp [FS.writeFile, linkpostText]
  · intro now item t
    constructor
    · intro ht
      simp [itemTimestamp, ht]
    · intro ht
      simp [itemTimestamp, ht]
  · intro ts hy hm hd hh hmi hs
    have hlen := strftimeIsoZ_data_length hy hm hd hh hmi hs
    rw [hasUtcOffsetSuffix, List.drop_eq_nil_of_le (le_of_eq hlen)]

/-- Witness for C9 at the titled item with upstream timestamp 1439974162. -/
theorem C9_witness :
    (c9fs2.files = fsC.files ++ [(linkfileName cfgC false (utcfromtimestamp 1439974162) "D1",
       "---\nlayout: post\ntype: \x27reference\x27\ntitle: " ++ pyStrOptStr (some "Dtitle") ++
       "\ndate: " ++ strftimeIsoZ (utcfromtimestamp 1439974162) ++ "\nref: " ++ "http://a" ++
       "\nexcerpt: " ++ pyStrSummary (resolvedSummary envC (envC.httpGet "http://a") "http://a").2 ++
       "\n---\n\n" ++ envC.documentSummary (envC.httpGet "http://a") ++
       "\n\n[View Original](" ++ "http://a" ++ ")\n")]) ∧
    itemTimestamp nowC itemA = utcfromtimestamp 0 ∧
    hasUtcOffsetSuffix (strftimeIsoZ (utcfromtimestamp 1439974162)) = false :=
  ⟨C9_front_matter_amended.1 envC cfgC fsC "D1" (some "Dtitle") "http://a"
     (utcfromtimestamp 1439974162) false
     [Event.httpGet "http://a", Event.summarizeInvoked "http://a", Event.rakeInvoked,
       Event.wroteFile "p/2015-08-19-D1.markdown"] c9fs2 rfl,
   (C9_front_matter_amended.2.1 nowC itemA 0).1 rfl,
   C9_front_matter_amended.2.2 (utcfromtimestamp 1439974162) (by decide) (by decide)
     (by decide) (by decide) (by decide) (by decide)⟩

end Pockyll
